import Mathlib

/-!
Shallow embedding of the GreenCart Logistics backend (src/server.js) and
verification of the frozen claims about its simulation engine.

JavaScript numbers are modelled as rationals (ℚ); `Math.round` is modelled
as half-up rounding (`⌊q + 1/2⌋`), which is its behaviour on the reals.
Request-body fields are `Option` values (`none` = absent); JavaScript
truthiness of a number is `≠ 0`, of a string `≠ ""`.
-/

namespace GreenCart

/-- JavaScript `Math.round`: rounds half-up, `Math.round(x) = ⌊x + 1/2⌋`. -/
def jsRound (q : ℚ) : ℤ := ⌊q + 1/2⌋

/-- Embedding of the regex `/^([0-1]?[0-9]|2[0-3]):[0-5][0-9]$/` from
server.js line 129.  A match is a string of length 4 (single-digit hour
`[0-9]`) or length 5 (two-digit hour `[0-1][0-9]` or `2[0-3]`), followed by
`:` and minutes `[0-5][0-9]`. -/
def timeRegexTest (s : String) : Bool :=
  match s.data with
  | [h, c, m1, m2] =>
      c == ':' && h.isDigit && ('0' ≤ m1 && m1 ≤ '5') && m2.isDigit
  | [h1, h2, c, m1, m2] =>
      c == ':' &&
      (((h1 == '0' || h1 == '1') && h2.isDigit) ||
        (h1 == '2' && ('0' ≤ h2 && h2 ≤ '3'))) &&
      ('0' ≤ m1 && m1 ≤ '5') && m2.isDigit
  | _ => false

/-- JavaScript falsiness of a possibly-absent number field:
`!x` is true when the field is absent (`undefined`) or equal to `0`. -/
def numFalsy : Option ℚ → Bool
  | none => true
  | some q => q == 0

/-- JavaScript falsiness of a possibly-absent string field:
`!x` is true when the field is absent (`undefined`) or the empty string. -/
def strFalsy : Option String → Bool
  | none => true
  | some s => s == ""

/-- Embedding of `validateSimulationInputs` (server.js lines 108-137).
Checks run in source order: missing/falsy fields, then the
`availableDrivers` range, then the `maxHoursPerDay` range, then the
start-time regex.  `.error` carries the exact response message;
`.ok ()` models the middleware calling `next()`. -/
def validateSimulationInputs (availableDrivers : Option ℚ)
    (startTime : Option String) (maxHoursPerDay : Option ℚ) :
    Except String Unit :=
  if numFalsy availableDrivers || strFalsy startTime || numFalsy maxHoursPerDay then
    .error "Missing required parameters: availableDrivers, startTime, maxHoursPerDay"
  else
    let a := availableDrivers.getD 0
    let m := maxHoursPerDay.getD 0
    let s := startTime.getD ""
    if a < 1 || a > 50 then
      .error "Available drivers must be between 1 and 50"
    else if m < 1 || m > 24 then
      .error "Max hours per day must be between 1 and 24"
    else if !timeRegexTest s then
      .error "Start time must be in HH:MM format"
    else
      .ok ()

/-- Projection: the error message of a validation outcome (`""` on success). -/
def errMsg : Except String Unit → String
  | .error s => s
  | .ok _ => ""

/-- Projection: `true` iff validation passed (the middleware called `next()`
and the simulation handler runs). -/
def validationOk : Except String Unit → Bool
  | .ok _ => true
  | .error _ => false

/-! ## Data model (server.js lines 31-55) -/

/-- `trafficLevel` enum of the Route schema (server.js line 41). -/
inductive TrafficLevel
  | Low
  | Medium
  | High
deriving DecidableEq, Repr

/-- A Driver document (server.js lines 31-36).  `id` stands in for the
MongoDB `_id`. -/
structure Driver where
  id : ℕ
  name : String
  currentShiftHours : ℚ
  past7DayWorkHours : ℚ
  isFatigued : Bool
deriving DecidableEq, Repr

/-- A Route document (server.js lines 38-43). -/
structure Route where
  routeId : String
  distance : ℚ
  trafficLevel : TrafficLevel
  baseTime : ℚ
deriving DecidableEq, Repr

/-- An Order document as fetched for the simulation (server.js lines 45-55);
`deliveryTimestamp` is carried as an opaque number of epoch milliseconds. -/
structure Order where
  orderId : String
  valueRs : ℚ
  assignedRoute : String
  deliveryTimestamp : ℤ
deriving DecidableEq, Repr

/-- What `orders.map` produces per order (server.js lines 453-499): either
the raw order document unchanged (`if (!route) return order;`, line 455) or
a new plain object spreading the order and adding the computed outcome
fields (lines 490-498). -/
inductive ProcessedOrder
  | unprocessed (order : Order)
  | processed (order : Order) (assignedDriver : ℕ) (actualDeliveryTime : ℤ)
      (isOnTime : Bool) (penalty : ℚ) (bonus : ℚ) (fuelCost : ℚ)
deriving DecidableEq, Repr

/-- The original order document embedded in a map result (either branch
carries the source order's data through unchanged). -/
def ProcessedOrder.base : ProcessedOrder → Order
  | .unprocessed o => o
  | .processed o _ _ _ _ _ _ => o

/-! ## Simulation helpers (server.js lines 397-416)

`calculateDeliveryTime` is declared `(route, driver, baseTime)` at line 397
but is CALLED as `calculateDeliveryTime(assignedDriver, route,
route.baseTime)` at line 461, so inside the function the `driver` parameter
is bound to a Route document.  JavaScript property access is untyped, so
`driver.isFatigued` then reads the (absent) `isFatigued` property of a
Route, yielding `undefined`, which is falsy.  The sum type `Entity` embeds
this dynamic typing. -/

/-- A JavaScript value that may be passed where server.js's
`calculateDeliveryTime` expects a document: a Driver or a Route. -/
inductive Entity
  | driver (d : Driver)
  | route (r : Route)

/-- The JavaScript expression `x.isFatigued` coerced to a boolean: on a
Driver document it is the stored flag; on a Route document the property is
absent, so the access yields `undefined`, which is falsy. -/
def Entity.isFatiguedJs : Entity → Bool
  | .driver d => d.isFatigued
  | .route _ => false

/-- Embedding of `calculateDeliveryTime` (server.js lines 397-406).  The
`route` parameter is unused in the source body as well; `driver` is
whatever document the caller passed in second position. -/
def calculateDeliveryTime (route : Entity) (driver : Entity) (baseTime : ℚ) : ℤ :=
  let deliveryTime := if driver.isFatiguedJs then baseTime * (13/10) else baseTime
  jsRound deliveryTime

/-- Embedding of `calculateFuelCost` (server.js lines 408-416):
`5 × distance`, plus `2 × distance` when `trafficLevel === 'High'`. -/
def calculateFuelCost (route : Route) : ℚ :=
  let baseCost := 5 * route.distance
  if route.trafficLevel = .High then baseCost + 2 * route.distance else baseCost

/-! ## The `/api/simulation` handler (server.js lines 419-539)

The handler's stateful parts are embedded by explicit state passing: the
fetched driver documents after the `forEach` fatigue assignment (lines
434-437) are part of the output, and the `orders.map` with its closed-over
mutable accumulators (lines 445-499) is a fold over an accumulator record. -/

/-- `routeMap` built by `routes.forEach(route => routeMap[route.routeId] =
route)` (server.js lines 440-443): later assignments with the same key
overwrite earlier ones. -/
def buildRouteMap (routes : List Route) : String → Option Route :=
  routes.foldl (fun m route rid => if rid = route.routeId then some route else m rid)
    (fun _ => none)

/-- The mutable state closed over by the `orders.map` callback (server.js
lines 445-450) together with the list of map results produced so far. -/
structure SimAcc where
  totalProfit : ℚ
  totalFuelCost : ℚ
  totalPenalties : ℚ
  totalBonuses : ℚ
  onTimeDeliveries : ℕ
  fuelLow : ℚ
  fuelMedium : ℚ
  fuelHigh : ℚ
  processed : List ProcessedOrder
deriving DecidableEq, Repr

/-- The accumulator at the start of the map (server.js lines 445-450). -/
def initAcc : SimAcc :=
  { totalProfit := 0, totalFuelCost := 0, totalPenalties := 0, totalBonuses := 0,
    onTimeDeliveries := 0, fuelLow := 0, fuelMedium := 0, fuelHigh := 0,
    processed := [] }

/-- Out-of-range array access placeholder (never reached when
`drivers.length = availableDrivers ≥ 1`, which the handler guarantees). -/
def undefinedDriver : Driver :=
  { id := 0, name := "", currentShiftHours := 0, past7DayWorkHours := 0,
    isFatigued := false }

/-- The body of the `orders.map` callback (server.js lines 453-499) for the
order at zero-based position `idx`, acting on the accumulator state. -/
def processOrder (routeMap : String → Option Route) (drivers : List Driver)
    (availableDrivers : ℕ) (idx : ℕ) (order : Order) (acc : SimAcc) : SimAcc :=
  match routeMap order.assignedRoute with
  | none => { acc with processed := acc.processed ++ [.unprocessed order] }
  | some route =>
    let driverIndex := idx % availableDrivers
    let assignedDriver := drivers.getD driverIndex undefinedDriver
    let actualDeliveryTime :=
      calculateDeliveryTime (.driver assignedDriver) (.route route) route.baseTime
    let isLate : Bool := decide ((actualDeliveryTime : ℚ) > route.baseTime + 10)
    let penalty : ℚ := if isLate then 50 else 0
    let bonus : ℚ := if isLate then 0
      else if order.valueRs > 1000 then order.valueRs * (1/10) else 0
    let fuelCost := calculateFuelCost route
    let orderProfit := order.valueRs + bonus - penalty - fuelCost
    { totalProfit := acc.totalProfit + orderProfit,
      totalFuelCost := acc.totalFuelCost + fuelCost,
      totalPenalties := acc.totalPenalties + penalty,
      totalBonuses := acc.totalBonuses + bonus,
      onTimeDeliveries := acc.onTimeDeliveries + (if isLate then 0 else 1),
      fuelLow := acc.fuelLow + (if route.trafficLevel = .Low then fuelCost else 0),
      fuelMedium := acc.fuelMedium + (if route.trafficLevel = .Medium then fuelCost else 0),
      fuelHigh := acc.fuelHigh + (if route.trafficLevel = .High then fuelCost else 0),
      processed := acc.processed ++
        [.processed order assignedDriver.id actualDeliveryTime (!isLate)
          penalty bonus fuelCost] }

/-- The `orders.map` loop (server.js line 453) from position `idx` on. -/
def runOrders (routeMap : String → Option Route) (drivers : List Driver)
    (availableDrivers : ℕ) : List Order → ℕ → SimAcc → SimAcc
  | [], _, acc => acc
  | o :: rest, idx, acc =>
      runOrders routeMap drivers availableDrivers rest (idx + 1)
        (processOrder routeMap drivers availableDrivers idx o acc)

/-- The `results` object (server.js lines 505-513). -/
structure Results where
  totalProfit : ℤ
  efficiencyScore : ℚ
  onTimeDeliveries : ℕ
  totalDeliveries : ℕ
  fuelCost : ℤ
  penalties : ℚ
  bonuses : ℤ
deriving DecidableEq, Repr

/-- Everything a successful run produces, together with the state of the
fetched driver documents after the run (the `forEach` at lines 434-437
assigns to these documents in place; explicit state passing makes that
final state part of the output). -/
structure SimulationOutput where
  drivers : List Driver
  processedOrders : List ProcessedOrder
  results : Results
  deliveryBreakdown : List (String × ℤ)
  fuelCostBreakdown : List (String × ℤ)
deriving DecidableEq, Repr

/-- The handler's failure before any order is processed (server.js lines
428-432). -/
inductive SimError
  | insufficientDrivers (found : ℕ) (requested : ℕ)
deriving DecidableEq, Repr

/-- The error response body text (server.js line 430). -/
def SimError.message : SimError → String
  | .insufficientDrivers found requested =>
      "Not enough drivers available. Found " ++ toString found ++
        ", requested " ++ toString requested

/-- The success branch of the `/api/simulation` handler (server.js lines
434-539): fatigue recomputation, route lookup, the order-processing map,
and assembly of results and breakdowns. -/
def simulationSuccess (availableDrivers : ℕ) (roster : List Driver)
    (routes : List Route) (orders : List Order) : SimulationOutput :=
    let drivers := (roster.take availableDrivers).map fun d =>
      { d with isFatigued := decide (d.currentShiftHours > 8) }
    let routeMap := buildRouteMap routes
    let acc := runOrders routeMap drivers availableDrivers orders 0 initAcc
    let efficiencyScore : ℚ :=
      if orders.length > 0 then ((acc.onTimeDeliveries : ℚ) / (orders.length : ℚ)) * 100
      else 0
    let results : Results :=
      { totalProfit := jsRound acc.totalProfit,
        efficiencyScore := ((jsRound (efficiencyScore * 100) : ℚ)) / 100,
        onTimeDeliveries := acc.onTimeDeliveries,
        totalDeliveries := orders.length,
        fuelCost := jsRound acc.totalFuelCost,
        penalties := acc.totalPenalties,
        bonuses := jsRound acc.totalBonuses }
    let deliveryBreakdown : List (String × ℤ) :=
      [("On Time", (acc.onTimeDeliveries : ℤ)),
       ("Late", (orders.length : ℤ) - (acc.onTimeDeliveries : ℤ))]
    let fuelCostBreakdown : List (String × ℤ) :=
      [("Low Traffic", jsRound acc.fuelLow),
       ("Medium Traffic", jsRound acc.fuelMedium),
       ("High Traffic", jsRound acc.fuelHigh)]
    { drivers := drivers, processedOrders := acc.processed,
      results := results, deliveryBreakdown := deliveryBreakdown,
      fuelCostBreakdown := fuelCostBreakdown }

/-- Embedding of the `/api/simulation` handler body after validation
(server.js lines 419-539).  `Driver.find().limit(availableDrivers)` is the
first `availableDrivers` elements of the roster in store order; an `.error`
result models the early `400` return (server.js lines 428-432), after which
no order is processed and nothing is persisted; an `.ok` result carries
everything assembled and saved. -/
def runSimulation (availableDrivers : ℕ) (roster : List Driver)
    (routes : List Route) (orders : List Order) :
    Except SimError SimulationOutput :=
  let drivers := roster.take availableDrivers
  if drivers.length < availableDrivers then
    .error (.insufficientDrivers drivers.length availableDrivers)
  else
    .ok (simulationSuccess availableDrivers roster routes orders)

/-! ## Specification-side descriptions of the run

These definitions restate, order by order, what the processing loop
produces; `runOrders_eq` below proves the loop equal to them. -/

/-- The fatigue recomputation applied to one driver document
(server.js line 436). -/
def fatigueUpdate (d : Driver) : Driver :=
  { d with isFatigued := decide (d.currentShiftHours > 8) }

/-- Whether an order's `assignedRoute` resolves in the route lookup. -/
def routeResolves (routeMap : String → Option Route) (o : Order) : Bool :=
  (routeMap o.assignedRoute).isSome

/-- The orders whose route resolves, paired with their route, in sequence
order. -/
def resolvedPairs (routeMap : String → Option Route) : List Order → List (Order × Route)
  | [] => []
  | o :: rest =>
    match routeMap o.assignedRoute with
    | some r => (o, r) :: resolvedPairs routeMap rest
    | none => resolvedPairs routeMap rest

/-- The high-value bonus of an on-time order (server.js lines 472-475). -/
def orderBonus (o : Order) : ℚ :=
  if o.valueRs > 1000 then o.valueRs * (1/10) else 0

/-- Total profit contributed by the orders whose route resolves. -/
def profitSum (routeMap : String → Option Route) (orders : List Order) : ℚ :=
  ((resolvedPairs routeMap orders).map fun p =>
    p.1.valueRs + orderBonus p.1 - calculateFuelCost p.2).sum

/-- Total fuel cost contributed by the orders whose route resolves. -/
def fuelSum (routeMap : String → Option Route) (orders : List Order) : ℚ :=
  ((resolvedPairs routeMap orders).map fun p => calculateFuelCost p.2).sum

/-- Total bonuses contributed by the orders whose route resolves. -/
def bonusSum (routeMap : String → Option Route) (orders : List Order) : ℚ :=
  ((resolvedPairs routeMap orders).map fun p => orderBonus p.1).sum

/-- Fuel cost accumulated into one traffic tier's bucket. -/
def tierFuelSum (t : TrafficLevel) (routeMap : String → Option Route)
    (orders : List Order) : ℚ :=
  ((resolvedPairs routeMap orders).map fun p =>
    if p.2.trafficLevel = t then calculateFuelCost p.2 else 0).sum

/-- The list of per-order map results, spelled out: an unresolved order is
carried through unchanged; a resolved order at position `idx` gets the
round-robin driver's id, delivery time `round(baseTime)`, on-time status,
zero penalty, its bonus and its fuel cost. -/
def processedSpec (routeMap : String → Option Route) (drivers : List Driver)
    (availableDrivers : ℕ) : List Order → ℕ → List ProcessedOrder
  | [], _ => []
  | o :: rest, idx =>
    (match routeMap o.assignedRoute with
     | none => ProcessedOrder.unprocessed o
     | some r =>
        .processed o ((drivers.getD (idx % availableDrivers) undefinedDriver).id)
          (jsRound r.baseTime) true 0 (orderBonus o) (calculateFuelCost r)) ::
      processedSpec routeMap drivers availableDrivers rest (idx + 1)

/-- Rounding to 2 decimal places, half-up (`Math.round(x*100)/100`). -/
def roundTo2 (q : ℚ) : ℚ := ((jsRound (q * 100) : ℤ) : ℚ) / 100

/-- Modelled from the spec: the strict 24-hour two-digit `HH:MM` format
(hours `00`-`23`, minutes `00`-`59`) that §4.1 and §8 of the specification
describe for `startTime`.  This follows the spec's words, to be compared
with the source's `timeRegexTest`. -/
def strictHHMM (s : String) : Bool :=
  match s.data with
  | [h1, h2, c, m1, m2] =>
      c == ':' &&
      (((h1 == '0' || h1 == '1') && h2.isDigit) ||
        (h1 == '2' && ('0' ≤ h2 && h2 ≤ '3'))) &&
      ('0' ≤ m1 && m1 ≤ '5') && m2.isDigit
  | _ => false

/-! ## Lemmas about the processing loop -/

/-- With a Route document in the `driver` position (as at the call site,
server.js line 461), the fatigue branch is never taken and the result is
`round(baseTime)`. -/
lemma calculateDeliveryTime_route (e : Entity) (r : Route) (b : ℚ) :
    calculateDeliveryTime e (.route r) b = jsRound b := rfl

/-- `Math.round(b)` never exceeds `b + 10`: the lateness test on a
non-fatigued delivery time is always false. -/
lemma jsRound_not_late (b : ℚ) :
    decide ((((jsRound b : ℤ)) : ℚ) > b + 10) = false := by
  have h1 : ((⌊b + 1/2⌋ : ℤ) : ℚ) ≤ b + 1/2 := Int.floor_le _
  simp only [decide_eq_false_iff_not, not_lt, jsRound]
  linarith

/-- Closed form of the order-processing loop: each accumulator field of the
final state is the initial field plus the corresponding sum over the orders
whose route resolves, penalties never grow, the on-time counter counts
exactly the resolved orders, and the map results are `processedSpec`. -/
lemma runOrders_eq (routeMap : String → Option Route) (drivers : List Driver)
    (availableDrivers : ℕ) :
    ∀ (orders : List Order) (idx : ℕ) (acc : SimAcc),
    runOrders routeMap drivers availableDrivers orders idx acc =
      { totalProfit := acc.totalProfit + profitSum routeMap orders,
        totalFuelCost := acc.totalFuelCost + fuelSum routeMap orders,
        totalPenalties := acc.totalPenalties,
        totalBonuses := acc.totalBonuses + bonusSum routeMap orders,
        onTimeDeliveries := acc.onTimeDeliveries + (resolvedPairs routeMap orders).length,
        fuelLow := acc.fuelLow + tierFuelSum .Low routeMap orders,
        fuelMedium := acc.fuelMedium + tierFuelSum .Medium routeMap orders,
        fuelHigh := acc.fuelHigh + tierFuelSum .High routeMap orders,
        processed := acc.processed ++
          processedSpec routeMap drivers availableDrivers orders idx }
  | [], idx, acc => by
      simp [runOrders, resolvedPairs, profitSum, fuelSum, bonusSum, tierFuelSum,
        processedSpec]
  | o :: rest, idx, acc => by
      rw [runOrders, runOrders_eq routeMap drivers availableDrivers rest]
      cases h : routeMap o.assignedRoute with
      | none =>
          simp only [processOrder, h, profitSum, fuelSum, bonusSum, tierFuelSum,
            resolvedPairs, processedSpec, List.map_cons, List.sum_cons]
          simp [List.append_assoc]
      | some r =>
          simp only [processOrder, h, calculateDeliveryTime_route, jsRound_not_late,
            profitSum, fuelSum, bonusSum, tierFuelSum, resolvedPairs, processedSpec,
            List.map_cons, List.sum_cons, Bool.false_eq_true, if_false, Bool.not_false,
            orderBonus]
          refine SimAcc.mk.injEq .. ▸ ?_
          simp [List.append_assoc]
          constructor
          · ring
          constructor
          · ring
          constructor
          · ring
          constructor
          · omega
          refine ⟨by ring, by ring, by ring⟩

/-- The number of resolved order/route pairs is the count of orders whose
route resolves. -/
lemma resolvedPairs_length (routeMap : String → Option Route) :
    ∀ orders : List Order,
    (resolvedPairs routeMap orders).length = orders.countP (routeResolves routeMap)
  | [] => by simp [resolvedPairs, List.countP_nil]
  | o :: rest => by
      rw [List.countP_cons]
      cases h : routeMap o.assignedRoute with
      | none =>
          simp [resolvedPairs, h, routeResolves, resolvedPairs_length routeMap rest]
      | some r =>
          simp [resolvedPairs, h, routeResolves, resolvedPairs_length routeMap rest]

/-- Every unresolved order appears among the map results as the raw order
document, unmodified. -/
lemma processedSpec_unresolved_mem (routeMap : String → Option Route)
    (drivers : List Driver) (availableDrivers : ℕ) :
    ∀ (orders : List Order) (idx : ℕ) (o : Order), o ∈ orders →
      routeMap o.assignedRoute = none →
      ProcessedOrder.unprocessed o ∈
        processedSpec routeMap drivers availableDrivers orders idx
  | [], _, o, ho, _ => absurd ho (List.not_mem_nil o)
  | o' :: rest, idx, o, ho, hnone => by
      rcases List.mem_cons.mp ho with h | h
      · subst h
        simp [processedSpec, hnone]
      · exact List.mem_cons_of_mem _
          (processedSpec_unresolved_mem routeMap drivers availableDrivers rest
            (idx + 1) o h hnone)

/-- Every map result carries one of the input order documents unchanged. -/
lemma processedSpec_base_mem (routeMap : String → Option Route)
    (drivers : List Driver) (availableDrivers : ℕ) :
    ∀ (orders : List Order) (idx : ℕ) (p : ProcessedOrder),
      p ∈ processedSpec routeMap drivers availableDrivers orders idx →
      p.base ∈ orders
  | [], _, p, hp => absurd hp (List.not_mem_nil p)
  | o :: rest, idx, p, hp => by
      rcases List.mem_cons.mp hp with h | h
      · subst h
        cases hr : routeMap o.assignedRoute <;>
          simp [processedSpec, hr, ProcessedOrder.base]
      · exact List.mem_cons_of_mem _
          (processedSpec_base_mem routeMap drivers availableDrivers rest (idx + 1) p h)

/-- Per-entry on-time facts of the map results: a processed entry is marked
on time with zero penalty, and its delivery time is `round(baseTime)` of
the route its order resolves to. -/
def entryOnTime (routeMap : String → Option Route) : ProcessedOrder → Prop
  | .unprocessed _ => True
  | .processed o _ t isOnTime penalty _ _ =>
      isOnTime = true ∧ penalty = 0 ∧
        ∃ r, routeMap o.assignedRoute = some r ∧ t = jsRound r.baseTime

/-- Every map result satisfies the per-entry on-time facts. -/
lemma processedSpec_entryOnTime (routeMap : String → Option Route)
    (drivers : List Driver) (availableDrivers : ℕ) :
    ∀ (orders : List Order) (idx : ℕ) (p : ProcessedOrder),
      p ∈ processedSpec routeMap drivers availableDrivers orders idx →
      entryOnTime routeMap p
  | [], _, p, hp => absurd hp (List.not_mem_nil p)
  | o :: rest, idx, p, hp => by
      rcases List.mem_cons.mp hp with h | h
      · subst h
        cases hr : routeMap o.assignedRoute with
        | none => simp [hr, entryOnTime]
        | some r =>
            simp only [hr]
            exact ⟨rfl, rfl, r, hr, rfl⟩
      · exact processedSpec_entryOnTime routeMap drivers availableDrivers rest
          (idx + 1) p h

/-- A successful handler run is exactly the success branch. -/
lemma runSimulation_ok {availableDrivers : ℕ} {roster : List Driver}
    {routes : List Route} {orders : List Order} {out : SimulationOutput}
    (h : runSimulation availableDrivers roster routes orders = .ok out) :
    out = simulationSuccess availableDrivers roster routes orders := by
  simp only [runSimulation] at h
  split at h
  · exact absurd h (by simp)
  · exact (Except.ok.injEq _ _ ▸ h).symm

/-- The success branch, with every field in closed form. -/
lemma simulationSuccess_eq (availableDrivers : ℕ) (roster : List Driver)
    (routes : List Route) (orders : List Order) :
    simulationSuccess availableDrivers roster routes orders =
      { drivers := (roster.take availableDrivers).map fatigueUpdate,
        processedOrders :=
          processedSpec (buildRouteMap routes)
            ((roster.take availableDrivers).map fatigueUpdate) availableDrivers orders 0,
        results :=
          { totalProfit := jsRound (profitSum (buildRouteMap routes) orders),
            efficiencyScore :=
              ((jsRound ((if orders.length > 0 then
                  (((resolvedPairs (buildRouteMap routes) orders).length : ℚ) /
                    (orders.length : ℚ)) * 100
                else 0) * 100) : ℤ) : ℚ) / 100,
            onTimeDeliveries := (resolvedPairs (buildRouteMap routes) orders).length,
            totalDeliveries := orders.length,
            fuelCost := jsRound (fuelSum (buildRouteMap routes) orders),
            penalties := 0,
            bonuses := jsRound (bonusSum (buildRouteMap routes) orders) },
        deliveryBreakdown :=
          [("On Time", ((resolvedPairs (buildRouteMap routes) orders).length : ℤ)),
           ("Late", (orders.length : ℤ) -
              ((resolvedPairs (buildRouteMap routes) orders).length : ℤ))],
        fuelCostBreakdown :=
          [("Low Traffic", jsRound (tierFuelSum .Low (buildRouteMap routes) orders)),
           ("Medium Traffic", jsRound (tierFuelSum .Medium (buildRouteMap routes) orders)),
           ("High Traffic", jsRound (tierFuelSum .High (buildRouteMap routes) orders))] } := by
  simp only [simulationSuccess]
  rw [runOrders_eq]
  simp [initAcc]
  exact ⟨rfl, rfl⟩

/-! ## Concrete sample data for witnesses and counterexamples -/

/-- A driver who has worked more than 8 hours (fatigued by the
`currentShiftHours > 8` rule) whose stored flag is still stale. -/
def drvA : Driver :=
  { id := 1, name := "Amit Shah", currentShiftHours := 9,
    past7DayWorkHours := 52, isFatigued := false }

/-- A rested driver. -/
def drvB : Driver :=
  { id := 2, name := "Priya Singh", currentShiftHours := 4,
    past7DayWorkHours := 32, isFatigued := false }

/-- A high-traffic route with a 30-minute base time (the spec's scenario
route). -/
def rtHigh30 : Route :=
  { routeId := "RT002", distance := 10, trafficLevel := .High, baseTime := 30 }

/-- A low-traffic route. -/
def rtLowA : Route :=
  { routeId := "RT005", distance := 8, trafficLevel := .Low, baseTime := 25 }

/-- The same low-traffic route with a longer distance. -/
def rtLowB : Route :=
  { routeId := "RT005", distance := 15, trafficLevel := .Low, baseTime := 25 }

/-- A high-value order on the scenario route. -/
def ordHigh : Order :=
  { orderId := "ORD001", valueRs := 1200, assignedRoute := "RT002",
    deliveryTimestamp := 0 }

/-- An order whose `assignedRoute` resolves to no route in the catalog. -/
def ordDangling : Order :=
  { orderId := "ORD009", valueRs := 500, assignedRoute := "RT999",
    deliveryTimestamp := 0 }

/-! ## Claims -/

/-- Claim C1 (code bug): the spec says a fatigued driver's delivery takes
`round(baseTime × 1.3)` — `39` for `baseTime = 30` — but the code never
applies the fatigue multiplier.  `calculateDeliveryTime` is declared
`(route, driver, baseTime)` (server.js line 397) yet called
`(assignedDriver, route, route.baseTime)` (line 461), so the function reads
`isFatigued` off the Route object, where it is `undefined` (falsy), and the
recomputed driver flags (lines 434-437) are never consulted.  Evaluated at
the failing input: driver `currentShiftHours = 9` (fatigued), route
`baseTime = 30`; the processed order carries `actualDeliveryTime = 30`,
while the spec's formula gives `round(30 × 1.3) = 39`. -/
theorem fatigue_penalty_never_applied :
    drvA.currentShiftHours > 8 ∧
    (runSimulation 1 [drvA] [rtHigh30] [ordHigh]).map
        (fun out => out.processedOrders) =
      .ok [.processed ordHigh 1 30 true 0 120 70] ∧
    jsRound (rtHigh30.baseTime * (13/10)) = 39 := by
  refine ⟨by norm_num [drvA], ?_, by norm_num [rtHigh30, jsRound]⟩
  simp [runSimulation, simulationSuccess, runOrders, processOrder, buildRouteMap,
    initAcc, calculateDeliveryTime, calculateFuelCost, Entity.isFatiguedJs,
    undefinedDriver, drvA, rtHigh30, ordHigh, List.getD, Except.map]
  norm_num [jsRound]

/-- Claim C2 counterexample: a run whose single order has a dangling route
reference reports `deliveryBreakdown` late count `1`, not `0` — the
unresolved order IS counted as late (`Late = orders.length −
onTimeDeliveries`, server.js line 517), contradicting the claim that it is
counted in neither bucket. -/
theorem unresolved_order_counted_late_cex :
    (runSimulation 1 [drvB] [] [ordDangling]).map
        (fun out => out.deliveryBreakdown) =
      .ok [("On Time", 0), ("Late", 1)] ∧
    (runSimulation 1 [drvB] [] [ordDangling]).map
        (fun out => out.deliveryBreakdown) ≠
      .ok [("On Time", 0), ("Late", 0)] := by
  have h : (runSimulation 1 [drvB] [] [ordDangling]).map
      (fun out => out.deliveryBreakdown) = .ok [("On Time", 0), ("Late", 1)] := by
    simp [runSimulation, simulationSuccess, runOrders, processOrder, buildRouteMap,
      initAcc, drvB, ordDangling, Except.map]
  refine ⟨h, ?_⟩
  rw [h]
  simp

/-- Claim C2 (amended): an order whose `assignedRoute` does not resolve is
carried through unmodified with no driver assignment, contributes nothing
to the profit, fuel, penalty or bonus totals (each total is a sum over the
resolved orders only), and is not counted on-time; but the reported late
count is `totalOrders − onTimeCount`, so unresolved orders ARE included in
the late count of the DeliveryBreakdown. -/
theorem unresolved_orders_skip_amended {availableDrivers : ℕ}
    {roster : List Driver} {routes : List Route} {orders : List Order}
    {out : SimulationOutput}
    (h : runSimulation availableDrivers roster routes orders = .ok out) :
    (∀ o ∈ orders, buildRouteMap routes o.assignedRoute = none →
      ProcessedOrder.unprocessed o ∈ out.processedOrders) ∧
    out.results.totalProfit = jsRound (profitSum (buildRouteMap routes) orders) ∧
    out.results.fuelCost = jsRound (fuelSum (buildRouteMap routes) orders) ∧
    out.results.penalties = 0 ∧
    out.results.bonuses = jsRound (bonusSum (buildRouteMap routes) orders) ∧
    out.results.onTimeDeliveries =
      orders.countP (routeResolves (buildRouteMap routes)) ∧
    out.deliveryBreakdown =
      [("On Time", (orders.countP (routeResolves (buildRouteMap routes)) : ℤ)),
       ("Late", (orders.length : ℤ) -
          (orders.countP (routeResolves (buildRouteMap routes)) : ℤ))] := by
  rw [runSimulation_ok h, simulationSuccess_eq]
  refine ⟨?_, rfl, rfl, rfl, rfl, ?_, ?_⟩
  · intro o ho hnone
    exact processedSpec_unresolved_mem _ _ _ orders 0 o ho hnone
  · simp [resolvedPairs_length]
  · simp [resolvedPairs_length]

/-- Claim C2 witness: the amended theorem applied to the
single-dangling-order run. -/
theorem unresolved_orders_skip_witness :
    runSimulation 1 [drvB] [] [ordDangling] =
      .ok (simulationSuccess 1 [drvB] [] [ordDangling]) ∧
    ((∀ o ∈ [ordDangling], buildRouteMap [] o.assignedRoute = none →
      ProcessedOrder.unprocessed o ∈
        (simulationSuccess 1 [drvB] [] [ordDangling]).processedOrders) ∧
    (simulationSuccess 1 [drvB] [] [ordDangling]).results.totalProfit =
      jsRound (profitSum (buildRouteMap []) [ordDangling]) ∧
    (simulationSuccess 1 [drvB] [] [ordDangling]).results.fuelCost =
      jsRound (fuelSum (buildRouteMap []) [ordDangling]) ∧
    (simulationSuccess 1 [drvB] [] [ordDangling]).results.penalties = 0 ∧
    (simulationSuccess 1 [drvB] [] [ordDangling]).results.bonuses =
      jsRound (bonusSum (buildRouteMap []) [ordDangling]) ∧
    (simulationSuccess 1 [drvB] [] [ordDangling]).results.onTimeDeliveries =
      [ordDangling].countP (routeResolves (buildRouteMap [])) ∧
    (simulationSuccess 1 [drvB] [] [ordDangling]).deliveryBreakdown =
      [("On Time", (([ordDangling].countP (routeResolves (buildRouteMap []))) : ℤ)),
       ("Late", (([ordDangling].length : ℤ)) -
          (([ordDangling].countP (routeResolves (buildRouteMap []))) : ℤ))]) :=
  ⟨rfl, @unresolved_orders_skip_amended 1 [drvB] [] [ordDangling]
    (simulationSuccess 1 [drvB] [] [ordDangling]) rfl⟩

/-- Claim C3 counterexample: the fatigue recomputation is an in-place
mutation of the fetched driver documents (`drivers.forEach(driver =>
driver.isFatigued = ...)`, server.js lines 435-437).  After a run with a
driver whose stored flag is stale (`currentShiftHours = 9`, `isFatigued =
false`), the driver collection no longer holds the input record: its
`isFatigued` has been overwritten to `true`. -/
theorem driver_fatigue_mutation_cex :
    (runSimulation 1 [drvA] [] []).map (fun out => out.drivers) =
      .ok [{ drvA with isFatigued := true }] ∧
    (runSimulation 1 [drvA] [] []).map (fun out => out.drivers) ≠
      .ok [drvA] := by
  have h : (runSimulation 1 [drvA] [] []).map (fun out => out.drivers) =
      .ok [{ drvA with isFatigued := true }] := by
    simp [runSimulation, simulationSuccess, runOrders, initAcc, drvA, Except.map]
    norm_num
  refine ⟨h, ?_⟩
  rw [h]
  simp [drvA]

/-- Claim C3 (amended): the per-order outcome fields are produced on new
output records — every map result embeds one of the input order documents
unchanged — but the fatigue recomputation mutates the fetched driver
documents in place: after a run, the driver collection holds each selected
driver with `isFatigued` overwritten by `currentShiftHours > 8`, not the
input records. -/
theorem simulation_mutation_frame_amended {availableDrivers : ℕ}
    {roster : List Driver} {routes : List Route} {orders : List Order}
    {out : SimulationOutput}
    (h : runSimulation availableDrivers roster routes orders = .ok out) :
    out.drivers = (roster.take availableDrivers).map fatigueUpdate ∧
    ∀ p ∈ out.processedOrders, p.base ∈ orders := by
  rw [runSimulation_ok h, simulationSuccess_eq]
  refine ⟨rfl, ?_⟩
  intro p hp
  exact processedSpec_base_mem _ _ _ orders 0 p hp

/-- Claim C3 witness: the amended theorem applied to a one-driver,
one-order run. -/
theorem simulation_mutation_frame_witness :
    runSimulation 1 [drvA] [rtHigh30] [ordHigh] =
      .ok (simulationSuccess 1 [drvA] [rtHigh30] [ordHigh]) ∧
    ((simulationSuccess 1 [drvA] [rtHigh30] [ordHigh]).drivers =
      ([drvA].take 1).map fatigueUpdate ∧
    ∀ p ∈ (simulationSuccess 1 [drvA] [rtHigh30] [ordHigh]).processedOrders,
      p.base ∈ [ordHigh]) :=
  ⟨rfl, @simulation_mutation_frame_amended 1 [drvA] [rtHigh30] [ordHigh]
    (simulationSuccess 1 [drvA] [rtHigh30] [ordHigh]) rfl⟩

/-- Claim C4 counterexample: `availableDrivers = 0` does NOT yield the
range error.  `0` is falsy in JavaScript, so the missing-parameters check
(server.js line 111) fires first and the response is the
missing-parameters message, not 'Available drivers must be between 1 and
50'. -/
theorem zero_drivers_missing_params_cex :
    errMsg (validateSimulationInputs (some 0) (some "09:00") (some 8)) =
      "Missing required parameters: availableDrivers, startTime, maxHoursPerDay" ∧
    errMsg (validateSimulationInputs (some 0) (some "09:00") (some 8)) ≠
      "Available drivers must be between 1 and 50" := by
  constructor
  · decide
  · decide

/-- Claim C4 (amended): for every request whose three parameters are
present and truthy (numbers nonzero, string nonempty) and whose
`availableDrivers` lies outside [1,50], validation fails with 'Available
drivers must be between 1 and 50' regardless of the other fields' values;
`availableDrivers = 0`, being falsy, instead triggers the
missing-parameters error. -/
theorem driver_count_range_error_amended (a m : ℚ) (t : String)
    (ha0 : a ≠ 0) (hrange : a < 1 ∨ a > 50) (ht : t ≠ "") (hm0 : m ≠ 0) :
    validateSimulationInputs (some a) (some t) (some m) =
      .error "Available drivers must be between 1 and 50" := by
  rcases hrange with hr | hr <;>
    simp [validateSimulationInputs, numFalsy, strFalsy, ha0, ht, hm0, hr]

/-- Claim C4 witness: the amended theorem at `availableDrivers = -1` with
an out-of-format start time and out-of-range hours, showing the range
error takes precedence over everything downstream. -/
theorem driver_count_range_error_witness :
    ((-1 : ℚ) ≠ 0 ∧ ((-1 : ℚ) < 1 ∨ (-1 : ℚ) > 50) ∧ "25:00" ≠ "" ∧ (99 : ℚ) ≠ 0) ∧
    validateSimulationInputs (some (-1)) (some "25:00") (some 99) =
      .error "Available drivers must be between 1 and 50" :=
  ⟨⟨by norm_num, Or.inl (by norm_num), by decide, by norm_num⟩,
    driver_count_range_error_amended (-1) 99 "25:00" (by norm_num)
      (Or.inl (by norm_num)) (by decide) (by norm_num)⟩

/-- Claim C5 counterexample: the single-digit-hour string `'9:30'` is NOT
rejected.  The source regex `^([0-1]?[0-9]|2[0-3]):[0-5][0-9]$`
(server.js line 129) makes the leading hour digit optional, so `'9:30'`
matches it and validation succeeds, although the strict two-digit `HH:MM`
format of the spec does not admit it. -/
theorem single_digit_hour_accepted_cex :
    strictHHMM "9:30" = false ∧
    timeRegexTest "9:30" = true ∧
    validateSimulationInputs (some 3) (some "9:30") (some 8) = .ok () := by
  refine ⟨by decide, by decide, ?_⟩
  rfl

/-- Claim C5 (amended): for requests whose other fields are present and in
range, validation fails with 'Start time must be in HH:MM format' exactly
when `startTime` does not match the source regex
`^([0-1]?[0-9]|2[0-3]):[0-5][0-9]$` — which, unlike the spec's strict
two-digit `HH:MM`, also accepts single-digit hours `0`-`9` such as
`'9:30'`. -/
theorem time_format_regex_amended (a m : ℚ) (t : String)
    (h1 : 1 ≤ a) (h2 : a ≤ 50) (h3 : 1 ≤ m) (h4 : m ≤ 24) (ht : t ≠ "") :
    validateSimulationInputs (some a) (some t) (some m) =
      if timeRegexTest t then .ok ()
      else .error "Start time must be in HH:MM format" := by
  have ha0 : a ≠ 0 := by intro he; rw [he] at h1; norm_num at h1
  have hm0 : m ≠ 0 := by intro he; rw [he] at h3; norm_num at h3
  have hna : ¬a < 1 := not_lt.mpr h1
  have hna2 : ¬a > 50 := not_lt.mpr h2
  have hnm : ¬m < 1 := not_lt.mpr h3
  have hnm2 : ¬m > 24 := not_lt.mpr h4
  cases hreg : timeRegexTest t <;>
    simp [validateSimulationInputs, numFalsy, strFalsy, ha0, ht, hm0,
      hna, hna2, hnm, hnm2, hreg]

/-- Claim C5 witness: the amended theorem at the malformed start time
`'25:00'`, which the regex rejects. -/
theorem time_format_regex_witness :
    ((1 : ℚ) ≤ 3 ∧ (3 : ℚ) ≤ 50 ∧ (1 : ℚ) ≤ 8 ∧ (8 : ℚ) ≤ 24 ∧ "25:00" ≠ "") ∧
    validateSimulationInputs (some 3) (some "25:00") (some 8) =
      (if timeRegexTest "25:00" then .ok ()
       else .error "Start time must be in HH:MM format") :=
  ⟨⟨by norm_num, by norm_num, by norm_num, by norm_num, by decide⟩,
    time_format_regex_amended 3 8 "25:00" (by norm_num) (by norm_num)
      (by norm_num) (by norm_num) (by decide)⟩

/-- Claim C6: in every run that reaches the processing loop, every order
whose route resolves is classified on time with zero penalty, its
`actualDeliveryTime` is `round(baseTime)` of its route (never more than
`baseTime + 10`), the penalties total is `0`, and `onTimeDeliveries`
equals the number of orders whose route resolved.  This is the downstream
consequence of the fatigue bug of C1: the lateness test compares
`round(baseTime)` against `baseTime + 10` and can never succeed. -/
theorem all_resolved_orders_on_time {availableDrivers : ℕ}
    {roster : List Driver} {routes : List Route} {orders : List Order}
    {out : SimulationOutput}
    (h : runSimulation availableDrivers roster routes orders = .ok out) :
    out.results.penalties = 0 ∧
    out.results.onTimeDeliveries =
      orders.countP (routeResolves (buildRouteMap routes)) ∧
    ∀ p ∈ out.processedOrders, entryOnTime (buildRouteMap routes) p := by
  rw [runSimulation_ok h, simulationSuccess_eq]
  refine ⟨rfl, by simp [resolvedPairs_length], ?_⟩
  intro p hp
  exact processedSpec_entryOnTime _ _ _ orders 0 p hp

/-- Claim C6 witness: the on-time theorem applied to a run over the
scenario route. -/
theorem all_resolved_orders_on_time_witness :
    runSimulation 1 [drvA] [rtHigh30] [ordHigh] =
      .ok (simulationSuccess 1 [drvA] [rtHigh30] [ordHigh]) ∧
    ((simulationSuccess 1 [drvA] [rtHigh30] [ordHigh]).results.penalties = 0 ∧
    (simulationSuccess 1 [drvA] [rtHigh30] [ordHigh]).results.onTimeDeliveries =
      [ordHigh].countP (routeResolves (buildRouteMap [rtHigh30])) ∧
    ∀ p ∈ (simulationSuccess 1 [drvA] [rtHigh30] [ordHigh]).processedOrders,
      entryOnTime (buildRouteMap [rtHigh30]) p) :=
  ⟨rfl, @all_resolved_orders_on_time 1 [drvA] [rtHigh30] [ordHigh]
    (simulationSuccess 1 [drvA] [rtHigh30] [ordHigh]) rfl⟩

/-- Claim C7: when the roster holds fewer drivers than requested, the call
fails with the insufficient-drivers error carrying the found and requested
counts; the `.error` return happens before the processing loop, so no
order is processed and no simulation result is produced or persisted. -/
theorem insufficient_drivers_error (availableDrivers : ℕ)
    (roster : List Driver) (routes : List Route) (orders : List Order)
    (h : roster.length < availableDrivers) :
    runSimulation availableDrivers roster routes orders =
      .error (.insufficientDrivers roster.length availableDrivers) := by
  have hlen : (roster.take availableDrivers).length = roster.length := by
    rw [List.length_take]
    omega
  simp only [runSimulation, hlen]
  rw [if_pos h]

/-- Claim C7 witness: requesting 2 drivers from a 1-driver roster. -/
theorem insufficient_drivers_error_witness :
    [drvB].length < 2 ∧
    runSimulation 2 [drvB] [] [] = .error (.insufficientDrivers 1 2) :=
  ⟨by decide, insufficient_drivers_error 2 [drvB] [] [] (by decide)⟩

/-- Claim C8: `efficiencyScore` is `(onTimeCount / totalOrders) × 100`
rounded to 2 decimal places, with the divisor the full order count
(`totalDeliveries = orders.length`, unresolved orders included); with zero
orders the score is 0 and every monetary total (profit, fuel cost,
penalties, bonuses) is 0. -/
theorem efficiency_score_formula {availableDrivers : ℕ}
    {roster : List Driver} {routes : List Route} {orders : List Order}
    {out : SimulationOutput}
    (h : runSimulation availableDrivers roster routes orders = .ok out) :
    out.results.totalDeliveries = orders.length ∧
    out.results.efficiencyScore =
      (if orders.length = 0 then 0
       else roundTo2 (((out.results.onTimeDeliveries : ℚ) /
          (orders.length : ℚ)) * 100)) ∧
    (orders = [] → out.results.efficiencyScore = 0 ∧
      out.results.totalProfit = 0 ∧ out.results.fuelCost = 0 ∧
      out.results.penalties = 0 ∧ out.results.bonuses = 0) := by
  rw [runSimulation_ok h, simulationSuccess_eq]
  refine ⟨rfl, ?_, ?_⟩
  · by_cases hlen : orders.length = 0
    · norm_num [hlen, jsRound]
    · have hpos : orders.length > 0 := Nat.pos_of_ne_zero hlen
      simp [hlen, hpos, roundTo2]
  · intro he
    subst he
    norm_num [profitSum, fuelSum, bonusSum, resolvedPairs, jsRound]

/-- Claim C8 witness: the efficiency theorem applied to a one-order run. -/
theorem efficiency_score_formula_witness :
    runSimulation 1 [drvB] [rtHigh30] [ordHigh] =
      .ok (simulationSuccess 1 [drvB] [rtHigh30] [ordHigh]) ∧
    ((simulationSuccess 1 [drvB] [rtHigh30] [ordHigh]).results.totalDeliveries =
      [ordHigh].length ∧
    (simulationSuccess 1 [drvB] [rtHigh30] [ordHigh]).results.efficiencyScore =
      (if [ordHigh].length = 0 then 0
       else roundTo2
        ((((simulationSuccess 1 [drvB] [rtHigh30] [ordHigh]).results.onTimeDeliveries : ℚ) /
          ([ordHigh].length : ℚ)) * 100)) ∧
    ([ordHigh] = ([] : List Order) →
      (simulationSuccess 1 [drvB] [rtHigh30] [ordHigh]).results.efficiencyScore = 0 ∧
      (simulationSuccess 1 [drvB] [rtHigh30] [ordHigh]).results.totalProfit = 0 ∧
      (simulationSuccess 1 [drvB] [rtHigh30] [ordHigh]).results.fuelCost = 0 ∧
      (simulationSuccess 1 [drvB] [rtHigh30] [ordHigh]).results.penalties = 0 ∧
      (simulationSuccess 1 [drvB] [rtHigh30] [ordHigh]).results.bonuses = 0)) :=
  ⟨rfl, @efficiency_score_formula 1 [drvB] [rtHigh30] [ordHigh]
    (simulationSuccess 1 [drvB] [rtHigh30] [ordHigh]) rfl⟩

/-- Claim C9: per-order fuel cost is `5 × distance` plus a `2 × distance`
surcharge exactly when the traffic level is High; for a fixed traffic tier
it is monotonically non-decreasing in distance; and
`fuelCost(High, d) = fuelCost(Low, d) + 2d`. -/
theorem fuel_cost_properties (r1 r2 : Route)
    (hLevel : r1.trafficLevel = r2.trafficLevel)
    (hDist : r1.distance ≤ r2.distance) :
    calculateFuelCost r1 =
      5 * r1.distance +
        (if r1.trafficLevel = .High then 2 * r1.distance else 0) ∧
    calculateFuelCost r1 ≤ calculateFuelCost r2 ∧
    calculateFuelCost { r1 with trafficLevel := .High } =
      calculateFuelCost { r1 with trafficLevel := .Low } + 2 * r1.distance := by
  refine ⟨?_, ?_, ?_⟩
  · by_cases hH : r1.trafficLevel = .High <;> simp [calculateFuelCost, hH]
  · rw [calculateFuelCost, calculateFuelCost, hLevel]
    by_cases hH : r2.trafficLevel = .High <;> simp [hH] <;> try linarith
  · simp [calculateFuelCost]

/-- Claim C9 witness: the fuel-cost theorem on two Low-traffic routes of
distances 8 and 15. -/
theorem fuel_cost_properties_witness :
    (rtLowA.trafficLevel = rtLowB.trafficLevel ∧
      rtLowA.distance ≤ rtLowB.distance) ∧
    (calculateFuelCost rtLowA =
      5 * rtLowA.distance +
        (if rtLowA.trafficLevel = .High then 2 * rtLowA.distance else 0) ∧
    calculateFuelCost rtLowA ≤ calculateFuelCost rtLowB ∧
    calculateFuelCost { rtLowA with trafficLevel := .High } =
      calculateFuelCost { rtLowA with trafficLevel := .Low } + 2 * rtLowA.distance) :=
  ⟨⟨rfl, by norm_num [rtLowA, rtLowB]⟩,
    fuel_cost_properties rtLowA rtLowB rfl (by norm_num [rtLowA, rtLowB])⟩

/-- Claim C10: validation performs only falsy-field, range and format
checks — there is no integrality check.  Every rational `availableDrivers`
in [1,50] and `maxHoursPerDay` in [1,24] with a regex-matching start time
passes validation, and the handler proceeds; the witness instantiates
`availableDrivers = 2.5`. -/
theorem validation_no_integrality_check (a m : ℚ) (t : String)
    (h1 : 1 ≤ a) (h2 : a ≤ 50) (h3 : 1 ≤ m) (h4 : m ≤ 24)
    (hreg : timeRegexTest t = true) :
    validateSimulationInputs (some a) (some t) (some m) = .ok () := by
  have ht : t ≠ "" := by
    intro he
    rw [he] at hreg
    exact absurd hreg (by decide)
  have ha0 : a ≠ 0 := by intro he; rw [he] at h1; norm_num at h1
  have hm0 : m ≠ 0 := by intro he; rw [he] at h3; norm_num at h3
  have hna : ¬a < 1 := not_lt.mpr h1
  have hna2 : ¬a > 50 := not_lt.mpr h2
  have hnm : ¬m < 1 := not_lt.mpr h3
  have hnm2 : ¬m > 24 := not_lt.mpr h4
  simp [validateSimulationInputs, numFalsy, strFalsy, ha0, ht, hm0,
    hna, hna2, hnm, hnm2, hreg]

/-- Claim C10 witness: the non-integer `availableDrivers = 2.5` (and
`maxHoursPerDay = 8.5`) passes validation. -/
theorem validation_no_integrality_check_witness :
    ((1 : ℚ) ≤ 5/2 ∧ (5/2 : ℚ) ≤ 50 ∧ (1 : ℚ) ≤ 17/2 ∧ (17/2 : ℚ) ≤ 24 ∧
      timeRegexTest "09:00" = true) ∧
    validateSimulationInputs (some (5/2)) (some "09:00") (some (17/2)) = .ok () :=
  ⟨⟨by norm_num, by norm_num, by norm_num, by norm_num, by decide⟩,
    validation_no_integrality_check (5/2) (17/2) "09:00" (by norm_num)
      (by norm_num) (by norm_num) (by norm_num) (by decide)⟩

end GreenCart
